import Mathlib

/-!
Shallow embedding of `src/geopyspark/geotrellis/rasterize.py` (the functions
`rasterize` and `rasterize_features`) together with the collaborator surface
they use.  Python values that can cross the call are modelled by explicit
inductive types; a run of either public function is modelled as a pure value
`List RemoteCall × Except PyErr (TiledRasterLayer S)`: the list records every
remote call dispatched through the gateway, the `Except` the returned wrapped
layer or the raised Python error.  The gateway itself is a parameter
`gw : RemoteCall → S` returning the opaque engine-side handle.
-/

namespace Geopyspark

/-- Python numeric values as they matter here: `int` or `float`.  The float's
numeric value is kept exactly (as a rational); no claim depends on rounding. -/
inductive PyNum : Type
  | pint (n : Int)
  | pfloat (q : Rat)
deriving DecidableEq

/-- Python's `float(x)` on a numeric argument, as used at `float(fill_value)`
(rasterize.py lines 56 and 72). -/
def pyFloat : PyNum → PyNum
  | .pint n => .pfloat n
  | .pfloat q => .pfloat q

/-- The Python errors this layer can raise, following the spec's taxonomy:
`invalidArgument` is the `ValueError` of a failed enumeration lookup,
`encodingError` a failure to produce the binary geometry form, and
`attributeError` the error of calling `.map` on an object without it. -/
inductive PyErr : Type
  | invalidArgument
  | encodingError
  | attributeError
deriving DecidableEq

/-- A serialized record crossing the runtime boundary: a byte string
(abstracted as a list of naturals; the exact layout is owned by the external
codecs). -/
abbrev Bytes := List Nat

/-- Modelled from the spec: the Cell Type enumeration of
`geopyspark.geotrellis.constants` (declared by the imports of rasterize.py but
not itself under `src/`): an enumerated tag for per-pixel numeric
representation (8/16/32-bit signed/unsigned integers and 32/64-bit floats; the
no-data-sentinel variants are elided, the coercion mechanics being identical
for them). -/
inductive CellType : Type
  | int8
  | uint8
  | int16
  | uint16
  | int32
  | float32
  | float64
deriving DecidableEq

/-- The canonical string value of each Cell Type member (the Python
enumeration member's `.value`). -/
def CellType.value : CellType → String
  | .int8 => "int8"
  | .uint8 => "uint8"
  | .int16 => "int16"
  | .uint16 => "uint16"
  | .int32 => "int32"
  | .float32 => "float32"
  | .float64 => "float64"

/-- Lookup of a Cell Type member by its canonical string value (the value
branch of the Python enumeration constructor `CellType(x)`). -/
def CellType.ofValue : String → Option CellType
  | "int8" => some .int8
  | "uint8" => some .uint8
  | "int16" => some .int16
  | "uint16" => some .uint16
  | "int32" => some .int32
  | "float32" => some .float32
  | "float64" => some .float64
  | _ => none

/-- A small code for a Cell Type member, used inside the feature/CellValue
wire encoding. -/
def CellType.code : CellType → Nat
  | .int8 => 0
  | .uint8 => 1
  | .int16 => 2
  | .uint16 => 3
  | .int32 => 4
  | .float32 => 5
  | .float64 => 6

/-- Modelled from the spec: the Partitioner enumeration of
`geopyspark.geotrellis.constants` (not under `src/`): an enumerated tag
selecting the remote engine's distribution strategy. -/
inductive Partitioner : Type
  | hashPartitioner
  | spatialPartitioner
deriving DecidableEq

/-- The canonical string value of each Partitioner member. -/
def Partitioner.value : Partitioner → String
  | .hashPartitioner => "HashPartitioner"
  | .spatialPartitioner => "SpatialPartitioner"

/-- Lookup of a Partitioner member by its canonical string value. -/
def Partitioner.ofValue : String → Option Partitioner
  | "HashPartitioner" => some .hashPartitioner
  | "SpatialPartitioner" => some .spatialPartitioner
  | _ => none

/-- An argument position accepting either a pre-typed Cell Type member or a
string spelling (the two forms the Python enumeration constructor accepts). -/
inductive CellTypeArg : Type
  | member (c : CellType)
  | str (s : String)
deriving DecidableEq

/-- Python's `CellType(x)`: a member resolves to itself, a string resolves
through the closed value table, anything else raises `ValueError` (modelled
as `invalidArgument`). -/
def coerceCellType : CellTypeArg → Except PyErr CellType
  | .member c => .ok c
  | .str s =>
    match CellType.ofValue s with
    | some c => .ok c
    | none => .error .invalidArgument

/-- An argument position accepting either a pre-typed Partitioner member or a
string spelling. -/
inductive PartitionerArg : Type
  | member (p : Partitioner)
  | str (s : String)
deriving DecidableEq

/-- Python's `Partitioner(x)`: a member resolves to itself, a string resolves
through the closed value table, anything else raises `ValueError`. -/
def coercePartitioner : PartitionerArg → Except PyErr Partitioner
  | .member p => .ok p
  | .str s =>
    match Partitioner.ofValue s with
    | some p => .ok p
    | none => .error .invalidArgument

/-- Modelled from the spec: the Layer Type enumeration of
`geopyspark.geotrellis.constants` (not under `src/`); only `spatial` is used
by this module. -/
inductive LayerType : Type
  | spatial
  | spacetime
deriving DecidableEq

/-- A deterministic byte encoding of an integer coordinate (sign byte
followed by magnitude). -/
def encInt (n : Int) : List Nat :=
  if n < 0 then [1, n.natAbs] else [0, n.natAbs]

/-- Modelled from the spec: an in-memory vector shape of the external geometry
library (point/line/polygon), plus an `invalid` case standing for a
null/malformed geometry that the binary encoder rejects. -/
inductive Geometry : Type
  | point (x y : Int)
  | lineString (ps : List (Int × Int))
  | polygon (ring : List (Int × Int))
  | invalid
deriving DecidableEq

/-- Modelled from the spec: `shapely.wkb.dumps`, the well-known-binary encoder
of the external geometry library.  It is deterministic, encodes one geometry
per record, and fails with an `encodingError` on a null/invalid geometry. -/
def dumps : Geometry → Except PyErr Bytes
  | .point x y => .ok (1 :: (encInt x ++ encInt y))
  | .lineString ps => .ok (2 :: ps.length :: (ps.map (fun p => encInt p.1 ++ encInt p.2)).flatten)
  | .polygon ring => .ok (3 :: ring.length :: (ring.map (fun p => encInt p.1 ++ encInt p.2)).flatten)
  | .invalid => .error .encodingError

/-- Modelled from the spec: a CellValue — a numeric value paired with a
declared cell data type tag. -/
structure CellValue : Type where
  value : PyNum
  cellType : CellType
deriving DecidableEq

/-- A Python value at a dynamically-typed argument position (`crs` may
legally receive anything; a Feature's `properties` payload likewise). -/
inductive PyVal : Type
  | int (n : Int)
  | str (s : String)
  | float (q : Rat)
  | pynone
  | cellValue (cv : CellValue)
  | obj (id : Nat)
deriving DecidableEq

/-- Modelled from the spec: a Feature — a geometry paired with a value
payload, which for `rasterize_features` must be a CellValue. -/
structure Feature : Type where
  geometry : Geometry
  properties : PyVal
deriving DecidableEq

/-- The numeric part of the feature/CellValue wire encoding. -/
def encPyNum : PyNum → List Nat
  | .pint n => 0 :: encInt n
  | .pfloat q => 1 :: (encInt q.num ++ [q.den])

/-- Modelled from the spec: `feature_cellvalue_encoder` of
`geopyspark.vector_pipe.vector_pipe_protobufcodecs` (imported by rasterize.py
but not under `src/`): encodes one Feature as geometry bytes followed by the
typed numeric value, failing with `invalidArgument` when the Feature's value
payload is not a CellValue and with `encodingError` when the geometry bytes
cannot be produced. -/
def feature_cellvalue_encoder (f : Feature) : Except PyErr Bytes :=
  match f.properties with
  | .cellValue cv =>
    match dumps f.geometry with
    | .error e => .error e
    | .ok bs => .ok (bs ++ encPyNum cv.value ++ [cv.cellType.code])
  | _ => .error .invalidArgument

/-- The serialization format tag carried by a distributed collection:
`pickled` is the framework's default generic serializer, `featureCellValue`
the ProtoBuf codec pair `(feature_cellvalue_decoder, feature_cellvalue_encoder)`
installed by `rasterize_features`. -/
inductive WireSerializer : Type
  | pickled
  | featureCellValue
deriving DecidableEq

/-- Modelled from the spec: the distributed collection (the RDD-like external
collaborator), reduced to what this layer observes: its elements grouped by
partition, its serialization format tag, and the flag that marks it as
bypassing the framework's default serialization layer. -/
structure PyRDD (α : Type) : Type where
  partitions : List (List α)
  serializer : WireSerializer
  bypassSerializer : Bool
deriving DecidableEq

/-- Fallible elementwise mapping over a list, stopping at the first error
(the semantics of running a possibly-raising Python function over each
element in order). -/
def mapE {ε α β : Type} (f : α → Except ε β) : List α → Except ε (List β)
  | [] => .ok []
  | a :: as =>
    match f a with
    | .error e => .error e
    | .ok b =>
      match mapE f as with
      | .error e => .error e
      | .ok bs => .ok (b :: bs)

/-- Modelled from the spec: the distributed collection's `map` — a pure
per-element transform that changes neither element order nor partition
assignment; the derived collection starts with the framework's default
serializer and an unset bypass flag.  The per-element function may raise. -/
def PyRDD.mapE {ε α β : Type} (r : PyRDD α) (f : α → Except ε β) :
    Except ε (PyRDD β) :=
  match Geopyspark.mapE (Geopyspark.mapE f) r.partitions with
  | .error e => .error e
  | .ok ps => .ok ⟨ps, .pickled, false⟩

/-- Modelled from the spec: re-tagging the features collection with the
feature/CellValue ProtoBuf codec (`ProtoBufSerializer(feature_cellvalue_decoder,
feature_cellvalue_encoder)` and pyspark's `_reserialize`, neither under
`src/`): each record is put through the feature/CellValue encoder — whose
failures surface at this mapping/re-tagging step — while element order,
partition assignment and count are unchanged and only the serializer tag of
the collection changes. -/
def reserializeFC (r : PyRDD Feature) : Except PyErr (PyRDD Feature) :=
  match mapE (mapE feature_cellvalue_encoder) r.partitions with
  | .error e => .error e
  | .ok _ => .ok ⟨r.partitions, .featureCellValue, r.bypassSerializer⟩

/-- The execution-context handle (`pysc._jsc.sc()`), opaque at this layer. -/
structure SparkContext : Type where
  jscId : Nat
deriving DecidableEq

/-- Modelled from the spec: the opaque rasterizer configuration bag, passed
through unmodified and never interpreted here. -/
structure RasterizerOptions : Type where
  id : Nat
deriving DecidableEq

/-- The `geoms` argument of `rasterize` as Python's dynamic typing sees it:
a list, a tuple, an RDD-like object supporting `map`, or any other object —
which has no `map` attribute (a single geometry, a generator, ...). -/
inductive GeomsArg : Type
  | list (gs : List Geometry)
  | tuple (gs : List Geometry)
  | rdd (r : PyRDD Geometry)
  | other (v : PyVal)
deriving DecidableEq

/-- One remote call through the cross-runtime gateway, with its arguments in
the positional order fixed by the external interface (spec section 6). -/
inductive RemoteCall : Type
  | rasterizeGeometrySeq (ctx : SparkContext) (wkbs : List Bytes) (crs : PyVal)
      (zoom : Int) (fill : PyNum) (cellType : String)
      (options : Option RasterizerOptions) (numPartitions : Option Int)
      (partitioner : String)
  | rasterizeGeometryRDD (geoms : PyRDD Bytes) (crs : PyVal) (zoom : Int)
      (fill : PyNum) (cellType : String) (options : Option RasterizerOptions)
      (numPartitions : Option Int) (partitioner : String)
  | rasterizeFeaturesWithZIndex (features : PyRDD Feature) (crs : PyVal)
      (zoom : Int) (cellType : String) (options : Option RasterizerOptions)
      (numPartitions : Option Int) (zindexCellType : String)
      (partitioner : String)
deriving DecidableEq

/-- The result proxy: the opaque engine-side handle wrapped with a layer-type
tag (`TiledRasterLayer(LayerType.SPATIAL, srdd)`). -/
structure TiledRasterLayer (S : Type) : Type where
  layerType : LayerType
  srdd : S
deriving DecidableEq

/-- The CRS normalization step (rasterize.py lines 42-43 and 119-120): an
integer is coerced to its decimal string representation; every other value is
left untouched. -/
def crsCoerce : PyVal → PyVal
  | .int n => .str (Int.repr n)
  | v => v

/-- Shallow embedding of `rasterize` (rasterize.py lines 14-78).  `gw` is the
gateway dispatch of `SpatialTiledRasterLayer.rasterizeGeometry`, returning the
opaque handle.  The steps follow the source order: CRS coercion, partitioner
resolution, then per path: WKB encoding of the payload, cell-type resolution
(at argument-evaluation time, hence after encoding), dispatch, wrapping.  The
returned list records the dispatched remote calls. -/
def rasterize {S : Type} (gw : RemoteCall → S) (ctx : SparkContext)
    (geoms : GeomsArg) (crs : PyVal) (zoom : Int) (fill : PyNum)
    (cellType : CellTypeArg) (options : Option RasterizerOptions)
    (numPartitions : Option Int) (partitioner : PartitionerArg) :
    List RemoteCall × Except PyErr (TiledRasterLayer S) :=
  let crs := crsCoerce crs
  match coercePartitioner partitioner with
  | .error e => ([], .error e)
  | .ok part =>
    match geoms with
    | .list gs | .tuple gs =>
      match mapE dumps gs with
      | .error e => ([], .error e)
      | .ok wkbs =>
        match coerceCellType cellType with
        | .error e => ([], .error e)
        | .ok ct =>
          let call := RemoteCall.rasterizeGeometrySeq ctx wkbs crs zoom
            (pyFloat fill) ct.value options numPartitions part.value
          ([call], .ok ⟨LayerType.spatial, gw call⟩)
    | .rdd r =>
      match r.mapE dumps with
      | .error e => ([], .error e)
      | .ok wkbRdd =>
        match coerceCellType cellType with
        | .error e => ([], .error e)
        | .ok ct =>
          let call := RemoteCall.rasterizeGeometryRDD
            ⟨wkbRdd.partitions, wkbRdd.serializer, true⟩ crs zoom
            (pyFloat fill) ct.value options numPartitions part.value
          ([call], .ok ⟨LayerType.spatial, gw call⟩)
    | .other _ => ([], .error .attributeError)

/-- Shallow embedding of `rasterize_features` (rasterize.py lines 81-139).
`gw` dispatches `SpatialTiledRasterLayer.rasterizeFeaturesWithZIndex`.  Steps
in source order: CRS coercion, partitioner resolution, re-tagging of the
features collection with the feature/CellValue codec, cell-type and
zindex-cell-type resolution (at argument-evaluation time), dispatch,
wrapping. -/
def rasterize_features {S : Type} (gw : RemoteCall → S)
    (features : PyRDD Feature) (crs : PyVal) (zoom : Int)
    (cellType : CellTypeArg) (options : Option RasterizerOptions)
    (numPartitions : Option Int) (zindexCellType : CellTypeArg)
    (partitioner : PartitionerArg) :
    List RemoteCall × Except PyErr (TiledRasterLayer S) :=
  let crs := crsCoerce crs
  match coercePartitioner partitioner with
  | .error e => ([], .error e)
  | .ok part =>
    match reserializeFC features with
    | .error e => ([], .error e)
    | .ok rrdd =>
      match coerceCellType cellType with
      | .error e => ([], .error e)
      | .ok ct =>
        match coerceCellType zindexCellType with
        | .error e => ([], .error e)
        | .ok zct =>
          let call := RemoteCall.rasterizeFeaturesWithZIndex rrdd crs zoom
            ct.value options numPartitions zct.value part.value
          ([call], .ok ⟨LayerType.spatial, gw call⟩)

/-- A gateway test double returning a fixed trivial handle (spec section 9
suggests exactly this substitution for checking the marshalling logic). -/
def unitGateway : RemoteCall → Unit := fun _ => ()

/-- A concrete two-partition distributed collection of geometries, used to
instantiate the universally quantified theorems below. -/
def rddG0 : PyRDD Geometry :=
  ⟨[[Geometry.point 1 2], [Geometry.point 3 4]], .pickled, false⟩

/-- A concrete feature with a CellValue payload. -/
def feat0 : Feature := ⟨Geometry.point 0 0, .cellValue ⟨.pint 1, .int8⟩⟩

/-- A concrete feature whose payload is not a CellValue. -/
def featBad : Feature := ⟨Geometry.point 0 0, .pynone⟩

/-- A concrete one-partition distributed collection of features. -/
def rddF0 : PyRDD Feature := ⟨[[feat0]], .pickled, false⟩

/-- Successful fallible mapping relates input and output elementwise, in
order: the output is exactly the per-element images, same length, same
positions. -/
theorem mapE_ok_forall2 {ε α β : Type} (f : α → Except ε β) :
    ∀ (xs : List α) (ys : List β), mapE f xs = .ok ys →
      List.Forall₂ (fun a b => f a = .ok b) xs ys := by
  intro xs
  induction xs with
  | nil =>
    intro ys h
    simp only [mapE, Except.ok.injEq] at h
    subst h
    constructor
  | cons a as ih =>
    intro ys h
    cases hfa : f a with
    | error e => simp [mapE, hfa] at h
    | ok b =>
      cases hms : mapE f as with
      | error e => simp [mapE, hfa, hms] at h
      | ok bs =>
        simp only [mapE, hfa, hms, Except.ok.injEq] at h
        subst h
        exact List.Forall₂.cons hfa (ih bs hms)

/-- Successful fallible mapping preserves list length. -/
theorem mapE_ok_length {ε α β : Type} (f : α → Except ε β)
    (xs : List α) (ys : List β) (h : mapE f xs = .ok ys) :
    ys.length = xs.length :=
  (mapE_ok_forall2 f xs ys h).length_eq.symm

/-- A levelwise relation whose layers preserve length preserves the profile
of lengths of a nested list. -/
theorem forall2_map_length {α β : Type} {R : List α → List β → Prop}
    (hR : ∀ as bs, R as bs → as.length = bs.length) :
    ∀ {xss : List (List α)} {yss : List (List β)}, List.Forall₂ R xss yss →
      xss.map List.length = yss.map List.length := by
  intro xss yss h
  induction h with
  | nil => rfl
  | cons h₁ _ ih => simp [hR _ _ h₁, ih]

/-- C1: on the distributed path, the per-element WKB-encoded collection is
submitted with its bypass-serializer mark set, and the remote
rasterizeGeometry call receives that bypassed collection (the
distributed-collection form of the call), not a local byte sequence. -/
theorem C1_rdd_bypasses_serializer {S : Type} (gw : RemoteCall → S)
    (ctx : SparkContext) (r : PyRDD Geometry) (crs : PyVal) (zoom : Int)
    (fill : PyNum) (ctA : CellTypeArg) (opts : Option RasterizerOptions)
    (np : Option Int) (pA : PartitionerArg) (part : Partitioner)
    (ct : CellType) (w : PyRDD Bytes)
    (hp : coercePartitioner pA = .ok part)
    (hc : coerceCellType ctA = .ok ct)
    (hm : r.mapE dumps = .ok w) :
    rasterize gw ctx (.rdd r) crs zoom fill ctA opts np pA =
      ([RemoteCall.rasterizeGeometryRDD ⟨w.partitions, w.serializer, true⟩
          (crsCoerce crs) zoom (pyFloat fill) ct.value opts np part.value],
        .ok ⟨LayerType.spatial,
          gw (RemoteCall.rasterizeGeometryRDD ⟨w.partitions, w.serializer, true⟩
            (crsCoerce crs) zoom (pyFloat fill) ct.value opts np part.value)⟩) ∧
      (PyRDD.mk w.partitions w.serializer true).bypassSerializer = true := by
  refine ⟨?_, rfl⟩
  simp [rasterize, hp, hc, hm]

/-- C1 witness: a concrete two-partition collection of points, dispatched
with the bypass mark set. -/
theorem C1_witness :
    rasterize unitGateway ⟨0⟩ (GeomsArg.rdd rddG0) (.str "4326") 11 (.pint 5)
        (.member .float64) none none (.member .hashPartitioner) =
      ([RemoteCall.rasterizeGeometryRDD
          ⟨[[[1, 0, 1, 0, 2]], [[1, 0, 3, 0, 4]]], .pickled, true⟩
          (.str "4326") 11 (pyFloat (.pint 5)) "float64" none none
          "HashPartitioner"],
        .ok ⟨LayerType.spatial, ()⟩) := by
  have h := C1_rdd_bypasses_serializer unitGateway ⟨0⟩ rddG0 (.str "4326") 11
    (.pint 5) (.member .float64) none none (.member .hashPartitioner)
    .hashPartitioner .float64
    ⟨[[[1, 0, 1, 0, 2]], [[1, 0, 3, 0, 4]]], .pickled, false⟩ rfl rfl rfl
  exact h.1

/-- C5: an integer `crs` is coerced to its decimal string representation as
the very first step, so an integer code and its decimal string spelling give
identical runs of `rasterize` and `rasterize_features`; a string `crs` passes
through unchanged. -/
theorem C5_crs_normalization {S : Type} (gw : RemoteCall → S)
    (ctx : SparkContext) (geoms : GeomsArg) (n : Int) (s : String)
    (zoom : Int) (fill : PyNum) (ctA : CellTypeArg)
    (opts : Option RasterizerOptions) (np : Option Int)
    (pA : PartitionerArg) (fr : PyRDD Feature) (zctA : CellTypeArg) :
    crsCoerce (.int n) = .str (Int.repr n) ∧
    crsCoerce (.str s) = .str s ∧
    rasterize gw ctx geoms (.int n) zoom fill ctA opts np pA =
      rasterize gw ctx geoms (.str (Int.repr n)) zoom fill ctA opts np pA ∧
    rasterize_features gw fr (.int n) zoom ctA opts np zctA pA =
      rasterize_features gw fr (.str (Int.repr n)) zoom ctA opts np zctA pA := by
  exact ⟨rfl, rfl, rfl, rfl⟩

/-- A value that is not an integer is left unchanged by the CRS
normalization step. -/
theorem crsCoerce_eq_self_of_not_int (crs : PyVal)
    (h : ∀ n : Int, crs ≠ .int n) : crsCoerce crs = crs := by
  cases crs
  case int n => exact absurd rfl (h n)
  all_goals rfl

/-- A successful distributed map determines the output partitions: they are
the fallible image of the input partitions (and the derived collection starts
with the default serializer). -/
theorem PyRDD.mapE_ok {ε α β : Type} (f : α → Except ε β) (r : PyRDD α)
    (w : PyRDD β) (h : r.mapE f = .ok w) :
    Geopyspark.mapE (Geopyspark.mapE f) r.partitions = .ok w.partitions := by
  unfold PyRDD.mapE at h
  cases hps : Geopyspark.mapE (Geopyspark.mapE f) r.partitions with
  | error e => rw [hps] at h; exact absurd h (by simp)
  | ok ps =>
    rw [hps] at h
    simp only [Except.ok.injEq] at h
    subst h
    rfl

/-- A successful re-tagging of a features collection changes only the
serializer tag, to the feature/CellValue codec. -/
theorem reserializeFC_ok (fr rr : PyRDD Feature)
    (h : reserializeFC fr = .ok rr) :
    rr = ⟨fr.partitions, .featureCellValue, fr.bypassSerializer⟩ := by
  unfold reserializeFC at h
  cases hps : mapE (mapE feature_cellvalue_encoder) fr.partitions with
  | error e => rw [hps] at h; exact absurd h (by simp)
  | ok ps =>
    rw [hps] at h
    simp only [Except.ok.injEq] at h
    exact h.symm

/-- C7: on the finite in-memory path (list or tuple), every geometry is
serialized individually and synchronously to WKB, and the byte-strings are
submitted in one rasterizeGeometry call whose arguments are ordered (context,
byte-strings, crs, zoom, fill value as float, cell-type value, options,
num_partitions, partitioner value); the returned opaque handle is wrapped
tagged with the spatial layer-type and returned. -/
theorem C7_local_path {S : Type} (gw : RemoteCall → S) (ctx : SparkContext)
    (gs : List Geometry) (crs : PyVal) (zoom : Int) (fill : PyNum)
    (ctA : CellTypeArg) (opts : Option RasterizerOptions) (np : Option Int)
    (pA : PartitionerArg) (part : Partitioner) (ct : CellType)
    (wkbs : List Bytes)
    (hp : coercePartitioner pA = .ok part)
    (hc : coerceCellType ctA = .ok ct)
    (hm : mapE dumps gs = .ok wkbs) :
    rasterize gw ctx (.list gs) crs zoom fill ctA opts np pA =
      ([RemoteCall.rasterizeGeometrySeq ctx wkbs (crsCoerce crs) zoom
          (pyFloat fill) ct.value opts np part.value],
        .ok ⟨LayerType.spatial,
          gw (RemoteCall.rasterizeGeometrySeq ctx wkbs (crsCoerce crs) zoom
            (pyFloat fill) ct.value opts np part.value)⟩) ∧
    rasterize gw ctx (.tuple gs) crs zoom fill ctA opts np pA =
      rasterize gw ctx (.list gs) crs zoom fill ctA opts np pA ∧
    List.Forall₂ (fun g b => dumps g = .ok b) gs wkbs := by
  refine ⟨?_, rfl, mapE_ok_forall2 dumps gs wkbs hm⟩
  simp [rasterize, hp, hc, hm]

/-- C7 witness: two concrete points, rasterized through the in-memory path
with every parameter given in its string spelling. -/
theorem C7_witness :
    rasterize unitGateway ⟨7⟩
        (GeomsArg.list [Geometry.point 1 2, Geometry.point 3 4])
        (.int 4326) 8 (.pfloat 2) (.str "int16") (some ⟨3⟩) (some 12)
        (.str "SpatialPartitioner") =
      ([RemoteCall.rasterizeGeometrySeq ⟨7⟩ [[1, 0, 1, 0, 2], [1, 0, 3, 0, 4]]
          (.str "4326") 8 (pyFloat (.pfloat 2)) "int16" (some ⟨3⟩) (some 12)
          "SpatialPartitioner"],
        .ok ⟨LayerType.spatial, ()⟩) := by
  have h := C7_local_path unitGateway ⟨7⟩
    [Geometry.point 1 2, Geometry.point 3 4] (.int 4326) 8 (.pfloat 2)
    (.str "int16") (some ⟨3⟩) (some 12) (.str "SpatialPartitioner")
    .spatialPartitioner .int16 [[1, 0, 1, 0, 2], [1, 0, 3, 0, 4]] rfl rfl rfl
  exact h.1

/-- C3 counterexample: with `crs` neither a string nor an integer (`None`
here), `rasterize` does not fail with InvalidArgument — it succeeds and
dispatches a remote call carrying the unvalidated `crs` unchanged, refuting
the claimed local failure. -/
theorem C3_counterexample :
    rasterize unitGateway ⟨0⟩ (GeomsArg.list [Geometry.point 0 0]) .pynone 0
        (.pint 1) (.member .float64) none none (.member .hashPartitioner) =
      ([RemoteCall.rasterizeGeometrySeq ⟨0⟩ [[1, 0, 0, 0, 0]] .pynone 0
          (pyFloat (.pint 1)) "float64" none none "HashPartitioner"],
        .ok ⟨LayerType.spatial, ()⟩) := by
  rfl

/-- C3 amended: neither function validates `crs` locally: an integer is
coerced to its decimal string and every other value — string or not — is
forwarded unchanged inside the remote call, with no local failure on account
of `crs`. -/
theorem C3_crs_not_validated {S : Type} (gw : RemoteCall → S)
    (ctx : SparkContext) (gs : List Geometry) (crs : PyVal) (zoom : Int)
    (fill : PyNum) (ctA : CellTypeArg) (opts : Option RasterizerOptions)
    (np : Option Int) (pA : PartitionerArg) (part : Partitioner)
    (ct zct : CellType) (zctA : CellTypeArg) (wkbs : List Bytes)
    (fr rr : PyRDD Feature)
    (hcrs : ∀ n : Int, crs ≠ .int n)
    (hp : coercePartitioner pA = .ok part)
    (hc : coerceCellType ctA = .ok ct)
    (hm : mapE dumps gs = .ok wkbs)
    (hz : coerceCellType zctA = .ok zct)
    (hrs : reserializeFC fr = .ok rr) :
    rasterize gw ctx (.list gs) crs zoom fill ctA opts np pA =
      ([RemoteCall.rasterizeGeometrySeq ctx wkbs crs zoom (pyFloat fill)
          ct.value opts np part.value],
        .ok ⟨LayerType.spatial,
          gw (RemoteCall.rasterizeGeometrySeq ctx wkbs crs zoom (pyFloat fill)
            ct.value opts np part.value)⟩) ∧
    rasterize_features gw fr crs zoom ctA opts np zctA pA =
      ([RemoteCall.rasterizeFeaturesWithZIndex rr crs zoom ct.value opts np
          zct.value part.value],
        .ok ⟨LayerType.spatial,
          gw (RemoteCall.rasterizeFeaturesWithZIndex rr crs zoom ct.value opts
            np zct.value part.value)⟩) := by
  have hid := crsCoerce_eq_self_of_not_int crs hcrs
  constructor
  · simp [rasterize, hp, hc, hm, hid]
  · simp [rasterize_features, hp, hc, hz, hrs, hid]

/-- C3 amended witness: a `None` CRS flows through both functions unchanged
and both succeed. -/
theorem C3_witness :
    rasterize unitGateway ⟨0⟩ (GeomsArg.list [Geometry.point 0 0]) .pynone 1
        (.pint 1) (.member .float64) none none (.member .hashPartitioner) =
      ([RemoteCall.rasterizeGeometrySeq ⟨0⟩ [[1, 0, 0, 0, 0]] .pynone 1
          (pyFloat (.pint 1)) "float64" none none "HashPartitioner"],
        .ok ⟨LayerType.spatial, ()⟩) ∧
    rasterize_features unitGateway rddF0 .pynone 1 (.member .float64) none
        none (.member .int8) (.member .hashPartitioner) =
      ([RemoteCall.rasterizeFeaturesWithZIndex
          ⟨[[feat0]], .featureCellValue, false⟩ .pynone 1 "float64" none none
          "int8" "HashPartitioner"],
        .ok ⟨LayerType.spatial, ()⟩) := by
  have h := C3_crs_not_validated unitGateway ⟨0⟩ [Geometry.point 0 0] .pynone
    1 (.pint 1) (.member .float64) none none (.member .hashPartitioner)
    .hashPartitioner .float64 .int8 (.member .int8) [[1, 0, 0, 0, 0]] rddF0
    ⟨[[feat0]], .featureCellValue, false⟩
    (fun n h => by cases h) rfl rfl rfl rfl rfl
  exact h

/-- C4 counterexample: with `num_partitions = 5` the distributed collection
is not repartitioned before submission — the submitted collection keeps its
original 2 partitions, and `5` is merely forwarded as a remote-call
argument. -/
theorem C4_counterexample :
    rasterize unitGateway ⟨0⟩ (GeomsArg.rdd rddG0) (.str "4326") 0 (.pint 1)
        (.member .float64) none (some 5) (.member .hashPartitioner) =
      ([RemoteCall.rasterizeGeometryRDD
          ⟨[[[1, 0, 1, 0, 2]], [[1, 0, 3, 0, 4]]], .pickled, true⟩
          (.str "4326") 0 (pyFloat (.pint 1)) "float64" none (some 5)
          "HashPartitioner"],
        .ok ⟨LayerType.spatial, ()⟩) ∧
    rddG0.partitions.length = 2 ∧
    ([[[1, 0, 1, 0, 2]], [[1, 0, 3, 0, 4]]] : List (List Bytes)).length ≠ 5 := by
  exact ⟨rfl, rfl, by decide⟩

/-- C4 amended: `num_partitions` is not applied locally: the distributed
collection is submitted with its input partition count intact, and
`num_partitions` is forwarded unchanged as an argument of the remote call
(repartitioning, if any, is the remote engine's doing). -/
theorem C4_num_partitions_forwarded {S : Type} (gw : RemoteCall → S)
    (ctx : SparkContext) (r : PyRDD Geometry) (crs : PyVal) (zoom : Int)
    (fill : PyNum) (ctA : CellTypeArg) (opts : Option RasterizerOptions)
    (np : Option Int) (pA : PartitionerArg) (part : Partitioner)
    (ct : CellType) (w : PyRDD Bytes)
    (hp : coercePartitioner pA = .ok part)
    (hc : coerceCellType ctA = .ok ct)
    (hm : r.mapE dumps = .ok w) :
    (rasterize gw ctx (.rdd r) crs zoom fill ctA opts np pA).1 =
      [RemoteCall.rasterizeGeometryRDD ⟨w.partitions, w.serializer, true⟩
        (crsCoerce crs) zoom (pyFloat fill) ct.value opts np part.value] ∧
    w.partitions.length = r.partitions.length := by
  constructor
  · simp [rasterize, hp, hc, hm]
  · exact mapE_ok_length _ _ _ (PyRDD.mapE_ok dumps r w hm)

/-- C4 amended witness: the concrete two-partition collection is submitted
with 2 partitions even though `num_partitions = 5` is requested. -/
theorem C4_witness :
    (rasterize unitGateway ⟨0⟩ (GeomsArg.rdd rddG0) (.str "4326") 0 (.pint 1)
        (.member .float64) none (some 5) (.member .hashPartitioner)).1 =
      [RemoteCall.rasterizeGeometryRDD
        ⟨[[[1, 0, 1, 0, 2]], [[1, 0, 3, 0, 4]]], .pickled, true⟩
        (.str "4326") 0 (pyFloat (.pint 1)) "float64" none (some 5)
        "HashPartitioner"] ∧
    ([[[1, 0, 1, 0, 2]], [[1, 0, 3, 0, 4]]] : List (List Bytes)).length =
      rddG0.partitions.length := by
  have h := C4_num_partitions_forwarded unitGateway ⟨0⟩ rddG0 (.str "4326") 0
    (.pint 1) (.member .float64) none (some 5) (.member .hashPartitioner)
    .hashPartitioner .float64
    ⟨[[[1, 0, 1, 0, 2]], [[1, 0, 3, 0, 4]]], .pickled, false⟩ rfl rfl rfl
  exact h

/-- C6: every recognized cell_type and partitioner spelling — pre-typed
member or canonical string — resolves to exactly one canonical enumerated
value, the remote call's arguments carry the canonical values, and every
unrecognized spelling fails locally with no remote submission. -/
theorem C6_enum_resolution {S : Type} (gw : RemoteCall → S)
    (ctx : SparkContext) (gs : List Geometry) (crs : PyVal) (zoom : Int)
    (fill : PyNum) (opts : Option RasterizerOptions) (np : Option Int)
    (geoms : GeomsArg) (fr rr : PyRDD Feature) (c : CellType)
    (p : Partitioner) (sC sP : String) (ctA : CellTypeArg)
    (pA : PartitionerArg) (part : Partitioner) (ct : CellType)
    (wkbs : List Bytes)
    (hp : coercePartitioner pA = .ok part)
    (hc : coerceCellType ctA = .ok ct)
    (hm : mapE dumps gs = .ok wkbs)
    (hrs : reserializeFC fr = .ok rr) :
    coerceCellType (.member c) = .ok c ∧
    coerceCellType (.str c.value) = .ok c ∧
    coercePartitioner (.member p) = .ok p ∧
    coercePartitioner (.str p.value) = .ok p ∧
    (∀ c₁ c₂ : CellType, c₁.value = c₂.value → c₁ = c₂) ∧
    (∀ p₁ p₂ : Partitioner, p₁.value = p₂.value → p₁ = p₂) ∧
    (CellType.ofValue sC = none →
      rasterize gw ctx (.list gs) crs zoom fill (.str sC) opts np pA =
        ([], .error .invalidArgument)) ∧
    (Partitioner.ofValue sP = none →
      rasterize gw ctx geoms crs zoom fill ctA opts np (.str sP) =
        ([], .error .invalidArgument) ∧
      rasterize_features gw fr crs zoom ctA opts np ctA (.str sP) =
        ([], .error .invalidArgument)) ∧
    (rasterize gw ctx (.list gs) crs zoom fill ctA opts np pA).1 =
      [RemoteCall.rasterizeGeometrySeq ctx wkbs (crsCoerce crs) zoom
        (pyFloat fill) ct.value opts np part.value] ∧
    (rasterize_features gw fr crs zoom ctA opts np ctA pA).1 =
      [RemoteCall.rasterizeFeaturesWithZIndex rr (crsCoerce crs) zoom ct.value
        opts np ct.value part.value] := by
  refine ⟨rfl, ?_, rfl, ?_, ?_, ?_, ?_, ?_, ?_, ?_⟩
  · cases c <;> rfl
  · cases p <;> rfl
  · intro c₁ c₂ h
    cases c₁ <;> cases c₂ <;> simp_all [CellType.value]
  · intro p₁ p₂ h
    cases p₁ <;> cases p₂ <;> simp_all [Partitioner.value]
  · intro h
    simp [rasterize, hp, hm, coerceCellType, h]
  · intro h
    constructor <;>
      simp [rasterize, rasterize_features, coercePartitioner, h]
  · simp [rasterize, hp, hc, hm]
  · simp [rasterize_features, hp, hc, hrs]

/-- C6 witness: the canonical string spelling resolves, and unrecognized
spellings for cell type and partitioner fail with no call dispatched. -/
theorem C6_witness :
    coerceCellType (.str "int16") = .ok CellType.int16 ∧
    rasterize unitGateway ⟨0⟩ (GeomsArg.list [Geometry.point 0 0])
        (.str "4326") 0 (.pint 1) (.str "notacelltype") none none
        (.member .hashPartitioner) = ([], .error .invalidArgument) ∧
    rasterize_features unitGateway rddF0 (.str "4326") 0 (.member .float64)
        none none (.member .float64) (.str "bogus") =
      ([], .error .invalidArgument) := by
  have h := C6_enum_resolution unitGateway ⟨0⟩ [Geometry.point 0 0]
    (.str "4326") 0 (.pint 1) none none
    (GeomsArg.list [Geometry.point 0 0]) rddF0
    ⟨[[feat0]], .featureCellValue, false⟩ .int16 .hashPartitioner
    "notacelltype" "bogus" (.member .float64) (.member .hashPartitioner)
    .hashPartitioner .float64 [[1, 0, 0, 0, 0]] rfl rfl rfl rfl
  exact ⟨h.2.1, h.2.2.2.2.2.2.1 rfl, (h.2.2.2.2.2.2.2.1 rfl).2⟩

/-- C8: the per-element encoding/re-tagging step is a pure per-element map:
on the distributed geometry path the encoded collection corresponds to the
input elementwise in order (`Forall₂` by `dumps`), with the same per-partition
lengths, the same total element count, and it is what the remote call
receives; on the features path re-tagging leaves the partitioned elements
untouched. -/
theorem C8_order_preservation {S : Type} (gw : RemoteCall → S)
    (ctx : SparkContext) (r : PyRDD Geometry) (w : PyRDD Bytes)
    (fr rr : PyRDD Feature) (crs : PyVal) (zoom : Int) (fill : PyNum)
    (ctA zctA : CellTypeArg) (opts : Option RasterizerOptions)
    (np : Option Int) (pA : PartitionerArg) (part : Partitioner)
    (ct zct : CellType)
    (hp : coercePartitioner pA = .ok part)
    (hc : coerceCellType ctA = .ok ct)
    (hz : coerceCellType zctA = .ok zct)
    (hm : r.mapE dumps = .ok w)
    (hrs : reserializeFC fr = .ok rr) :
    List.Forall₂ (List.Forall₂ (fun g b => dumps g = .ok b)) r.partitions
      w.partitions ∧
    w.partitions.map List.length = r.partitions.map List.length ∧
    w.partitions.flatten.length = r.partitions.flatten.length ∧
    (rasterize gw ctx (.rdd r) crs zoom fill ctA opts np pA).1 =
      [RemoteCall.rasterizeGeometryRDD ⟨w.partitions, w.serializer, true⟩
        (crsCoerce crs) zoom (pyFloat fill) ct.value opts np part.value] ∧
    rr.partitions = fr.partitions ∧
    (rasterize_features gw fr crs zoom ctA opts np zctA pA).1 =
      [RemoteCall.rasterizeFeaturesWithZIndex rr (crsCoerce crs) zoom ct.value
        opts np zct.value part.value] := by
  have h0 := PyRDD.mapE_ok dumps r w hm
  have h2 := mapE_ok_forall2 (mapE dumps) r.partitions w.partitions h0
  have h3 := h2.imp (fun a b h => mapE_ok_forall2 dumps a b h)
  have h4 := (forall2_map_length (fun as bs h => h.length_eq) h3).symm
  refine ⟨h3, h4, ?_, ?_, ?_, ?_⟩
  · rw [List.length_flatten, List.length_flatten, h4]
  · simp [rasterize, hp, hc, hm]
  · rw [reserializeFC_ok fr rr hrs]
  · simp [rasterize_features, hp, hc, hz, hrs]

/-- C8 witness: the concrete two-partition collection maps to two encoded
partitions with the same per-partition lengths and elementwise
correspondence. -/
theorem C8_witness :
    List.Forall₂ (List.Forall₂ (fun g b => dumps g = .ok b)) rddG0.partitions
      [[[1, 0, 1, 0, 2]], [[1, 0, 3, 0, 4]]] ∧
    ([[[1, 0, 1, 0, 2]], [[1, 0, 3, 0, 4]]] : List (List Bytes)).map
        List.length = rddG0.partitions.map List.length := by
  have h := C8_order_preservation unitGateway ⟨0⟩ rddG0
    ⟨[[[1, 0, 1, 0, 2]], [[1, 0, 3, 0, 4]]], .pickled, false⟩ rddF0
    ⟨[[feat0]], .featureCellValue, false⟩ (.str "4326") 0 (.pint 1)
    (.member .float64) (.member .int8) none none (.member .hashPartitioner)
    .hashPartitioner .float64 .int8 rfl rfl rfl rfl rfl
  exact ⟨h.1, h.2.1⟩

/-- C9: `rasterize_features` re-tags the input collection with the
feature/CellValue codec — a codec distinct from the framework default and an
encoder distinct from the plain-geometry WKB encoder — submits the re-tagged
collection to rasterizeFeaturesWithZIndex with arguments ordered (collection,
crs, zoom, cell-type value, options, num_partitions, zindex cell-type value,
partitioner value), and wraps the returned handle as a spatial tiled
layer. -/
theorem C9_features_codec {S : Type} (gw : RemoteCall → S)
    (fr rr : PyRDD Feature) (crs : PyVal) (zoom : Int)
    (ctA zctA : CellTypeArg) (opts : Option RasterizerOptions)
    (np : Option Int) (pA : PartitionerArg) (part : Partitioner)
    (ct zct : CellType)
    (hp : coercePartitioner pA = .ok part)
    (hc : coerceCellType ctA = .ok ct)
    (hz : coerceCellType zctA = .ok zct)
    (hrs : reserializeFC fr = .ok rr) :
    rasterize_features gw fr crs zoom ctA opts np zctA pA =
      ([RemoteCall.rasterizeFeaturesWithZIndex rr (crsCoerce crs) zoom
          ct.value opts np zct.value part.value],
        .ok ⟨LayerType.spatial,
          gw (RemoteCall.rasterizeFeaturesWithZIndex rr (crsCoerce crs) zoom
            ct.value opts np zct.value part.value)⟩) ∧
    rr.serializer = .featureCellValue ∧
    WireSerializer.featureCellValue ≠ WireSerializer.pickled ∧
    feature_cellvalue_encoder feat0 ≠ dumps feat0.geometry := by
  refine ⟨by simp [rasterize_features, hp, hc, hz, hrs], ?_, by decide,
    by simp [feature_cellvalue_encoder, feat0, dumps, encPyNum, encInt,
      CellType.code]⟩
  rw [reserializeFC_ok fr rr hrs]

/-- C9 witness: a concrete features collection, re-tagged and dispatched. -/
theorem C9_witness :
    rasterize_features unitGateway rddF0 (.int 3857) 5 (.member .float64)
        none (some 2) (.member .int8) (.member .hashPartitioner) =
      ([RemoteCall.rasterizeFeaturesWithZIndex
          ⟨[[feat0]], .featureCellValue, false⟩ (.str "3857") 5 "float64"
          none (some 2) "int8" "HashPartitioner"],
        .ok ⟨LayerType.spatial, ()⟩) := by
  have h := C9_features_codec unitGateway rddF0
    ⟨[[feat0]], .featureCellValue, false⟩ (.int 3857) 5 (.member .float64)
    (.member .int8) none (some 2) (.member .hashPartitioner) .hashPartitioner
    .float64 .int8 rfl rfl rfl rfl
  exact h.1

/-- C10: `rasterize` chooses its submission path solely by the list-or-tuple
test: list and tuple take the local path (identically), a map-supporting
collection takes the distributed path, and any other object is sent down the
distributed path where the missing map operation raises an attribute error —
distinct from InvalidArgument — before any remote call. -/
theorem C10_dispatch_on_sequence_test {S : Type} (gw : RemoteCall → S)
    (ctx : SparkContext) (gs : List Geometry) (r : PyRDD Geometry) (v : PyVal)
    (crs : PyVal) (zoom : Int) (fill : PyNum) (ctA : CellTypeArg)
    (opts : Option RasterizerOptions) (np : Option Int) (pA : PartitionerArg)
    (part : Partitioner) (ct : CellType) (wkbs : List Bytes) (w : PyRDD Bytes)
    (hp : coercePartitioner pA = .ok part)
    (hc : coerceCellType ctA = .ok ct)
    (hm : mapE dumps gs = .ok wkbs)
    (hmr : r.mapE dumps = .ok w) :
    rasterize gw ctx (.other v) crs zoom fill ctA opts np pA =
      ([], .error .attributeError) ∧
    PyErr.attributeError ≠ PyErr.invalidArgument ∧
    rasterize gw ctx (.tuple gs) crs zoom fill ctA opts np pA =
      rasterize gw ctx (.list gs) crs zoom fill ctA opts np pA ∧
    (rasterize gw ctx (.list gs) crs zoom fill ctA opts np pA).1 =
      [RemoteCall.rasterizeGeometrySeq ctx wkbs (crsCoerce crs) zoom
        (pyFloat fill) ct.value opts np part.value] ∧
    (rasterize gw ctx (.rdd r) crs zoom fill ctA opts np pA).1 =
      [RemoteCall.rasterizeGeometryRDD ⟨w.partitions, w.serializer, true⟩
        (crsCoerce crs) zoom (pyFloat fill) ct.value opts np part.value] := by
  refine ⟨by simp [rasterize, hp], by decide, rfl,
    by simp [rasterize, hp, hc, hm], by simp [rasterize, hp, hc, hmr]⟩

/-- C10 witness: a non-sequence, non-collection object (no map attribute)
fails with an attribute error and no dispatched call. -/
theorem C10_witness :
    rasterize unitGateway ⟨0⟩ (GeomsArg.other (.obj 0)) (.str "4326") 0
        (.pint 1) (.member .float64) none none (.member .hashPartitioner) =
      ([], .error .attributeError) := by
  have h := C10_dispatch_on_sequence_test unitGateway ⟨0⟩ [] rddG0 (.obj 0)
    (.str "4326") 0 (.pint 1) (.member .float64) none none
    (.member .hashPartitioner) .hashPartitioner .float64 []
    ⟨[[[1, 0, 1, 0, 2]], [[1, 0, 3, 0, 4]]], .pickled, false⟩ rfl rfl rfl rfl
  exact h.1

/-- C2: a payload that cannot be encoded (a geometry failing WKB
serialization, or a Feature whose payload is not a CellValue) raises during
the local mapping/re-tagging step with no remote call dispatched; and in
general there is no partial submission — an erroring run dispatches no remote
call, a successful run dispatches exactly one. -/
theorem C2_no_partial_submission {S : Type} (gw : RemoteCall → S)
    (ctx : SparkContext) (geoms : GeomsArg) (gs : List Geometry)
    (r : PyRDD Geometry) (fr : PyRDD Feature) (crs : PyVal) (zoom : Int)
    (fill : PyNum) (ctA zctA : CellTypeArg) (opts : Option RasterizerOptions)
    (np : Option Int) (pA : PartitionerArg) (part : Partitioner) (e : PyErr) :
    (coercePartitioner pA = .ok part → mapE dumps gs = .error e →
      rasterize gw ctx (.list gs) crs zoom fill ctA opts np pA =
        ([], .error e)) ∧
    (coercePartitioner pA = .ok part → r.mapE dumps = .error e →
      rasterize gw ctx (.rdd r) crs zoom fill ctA opts np pA =
        ([], .error e)) ∧
    (coercePartitioner pA = .ok part → reserializeFC fr = .error e →
      rasterize_features gw fr crs zoom ctA opts np zctA pA =
        ([], .error e)) ∧
    (∀ err, (rasterize gw ctx geoms crs zoom fill ctA opts np pA).2 =
        .error err →
      (rasterize gw ctx geoms crs zoom fill ctA opts np pA).1 = []) ∧
    (∀ l, (rasterize gw ctx geoms crs zoom fill ctA opts np pA).2 = .ok l →
      ∃ c, (rasterize gw ctx geoms crs zoom fill ctA opts np pA).1 = [c]) ∧
    (∀ err, (rasterize_features gw fr crs zoom ctA opts np zctA pA).2 =
        .error err →
      (rasterize_features gw fr crs zoom ctA opts np zctA pA).1 = []) ∧
    (∀ l, (rasterize_features gw fr crs zoom ctA opts np zctA pA).2 =
        .ok l →
      ∃ c, (rasterize_features gw fr crs zoom ctA opts np zctA pA).1 =
        [c]) := by
  refine ⟨?_, ?_, ?_, ?_, ?_, ?_, ?_⟩
  · intro hp hf
    simp [rasterize, hp, hf]
  · intro hp hf
    simp [rasterize, hp, hf]
  · intro hp hf
    simp [rasterize_features, hp, hf]
  · intro err
    simp only [rasterize]
    repeat' split
    all_goals simp
  · intro l
    simp only [rasterize]
    repeat' split
    all_goals simp
  · intro err
    simp only [rasterize_features]
    repeat' split
    all_goals simp
  · intro l
    simp only [rasterize_features]
    repeat' split
    all_goals simp

/-- C2 witness: an unserializable geometry fails both rasterize paths with no
call dispatched, and a Feature whose payload is not a CellValue fails
rasterize_features with no call dispatched. -/
theorem C2_witness :
    rasterize unitGateway ⟨0⟩ (GeomsArg.list [Geometry.invalid]) (.str "4326")
        0 (.pint 1) (.member .float64) none none (.member .hashPartitioner) =
      ([], .error .encodingError) ∧
    rasterize unitGateway ⟨0⟩
        (GeomsArg.rdd ⟨[[Geometry.invalid]], .pickled, false⟩) (.str "4326")
        0 (.pint 1) (.member .float64) none none (.member .hashPartitioner) =
      ([], .error .encodingError) ∧
    rasterize_features unitGateway ⟨[[featBad]], .pickled, false⟩
        (.str "4326") 0 (.member .float64) none none (.member .int8)
        (.member .hashPartitioner) = ([], .error .invalidArgument) := by
  have h1 := C2_no_partial_submission unitGateway ⟨0⟩
    (GeomsArg.list [Geometry.invalid]) [Geometry.invalid]
    ⟨[[Geometry.invalid]], .pickled, false⟩ ⟨[[featBad]], .pickled, false⟩
    (.str "4326") 0 (.pint 1) (.member .float64) (.member .int8) none none
    (.member .hashPartitioner) .hashPartitioner .encodingError
  have h2 := C2_no_partial_submission unitGateway ⟨0⟩
    (GeomsArg.list [Geometry.invalid]) [Geometry.invalid]
    ⟨[[Geometry.invalid]], .pickled, false⟩ ⟨[[featBad]], .pickled, false⟩
    (.str "4326") 0 (.pint 1) (.member .float64) (.member .int8) none none
    (.member .hashPartitioner) .hashPartitioner .invalidArgument
  exact ⟨h1.1 rfl rfl, h1.2.1 rfl rfl, h2.2.2.1 rfl rfl⟩

end Geopyspark
